/-
  Verification of the git-merge-orchestrator test harness
  (test-scripts/verify_results.py, test-scripts/benchmark.py,
   test-scripts/create_test_repo.py) against its natural-language
  specification.

  Conventions of the shallow embedding:
  * Python dictionaries read from JSON become Lean structures; a field
    accessed with dict.get(k) (which may be absent) becomes an Option.
  * Python floats are embedded as rationals; every float computed by the
    scripts here is an exact arithmetic combination of its inputs, except
    statistics.stdev, which is the square root of the sample variance:
    we record the sample variance and state standard-deviation claims via
    the square.
  * Filesystem and git effects become explicit state passing over a
    GitState record; the subprocess layer is a parameter env saying which
    underlying git invocations exit with status 0.
-/
import Mathlib

namespace GMOTest

/-! ### Plan artifacts (verify_results.py)

A parsed merge_plan.json. `processing_mode`, per-file `assignee` and
`status`, and per-group `assignee` are read with dict.get and hence may be
absent; `files` and `groups` are read with dict.get(key, []). -/

/-- One entry of the `files` list of a file_level plan
(verify_results.py reads `path`, `assignee`, `status`). -/
structure FileEntry where
  path : String
  assignee : Option String
  status : Option String
deriving DecidableEq, Repr

/-- One entry of the `groups` list of a group_based plan. -/
structure PlanGroup where
  files : List String
  assignee : Option String
deriving DecidableEq, Repr

/-- A parsed merge_plan.json document. -/
structure Plan where
  processing_mode : Option String
  files : List FileEntry
  groups : List PlanGroup
deriving DecidableEq, Repr

/-- The unassigned sentinel `未分配` used by verify_results.py as the
default for a missing assignee. -/
def unassigned : String := "未分配"

/-- Ordered association list with an upsert, mirroring the Python dict
`assignee_workload[a] = assignee_workload.get(a, 0) + n`. -/
def bump : List (String × Nat) → String → Nat → List (String × Nat)
  | [], k, n => [(k, n)]
  | (k', v) :: t, k, n =>
      if k' = k then (k', v + n) :: t else (k', v) :: bump t k n

/-- Per-assignee workload table built by
TestResultVerifier._verify_load_balancing (verify_results.py:145-161):
file_level counts one per file entry whose assignee is not the sentinel;
any other mode sums group file counts per non-sentinel group assignee. -/
def assignee_workload (p : Plan) : List (String × Nat) :=
  if p.processing_mode = some "file_level" then
    p.files.foldl
      (fun w e =>
        let a := e.assignee.getD unassigned
        if a ≠ unassigned then bump w a 1 else w) []
  else
    p.groups.foldl
      (fun w g =>
        let a := g.assignee.getD unassigned
        if a ≠ unassigned then bump w a g.files.length else w) []

/-- min over a list of workloads, 0 for the empty list (mirrors Python
min on a nonempty list; callers guard nonemptiness). -/
def list_min_nat : List Nat → Nat
  | [] => 0
  | h :: t => t.foldl Nat.min h

/-- max over a list of workloads, 0 for the empty list. -/
def list_max_nat : List Nat → Nat
  | [] => 0
  | h :: t => t.foldl Nat.max h

/-- balance_ratio = min_workload / max_workload if max_workload > 0 else 0
(verify_results.py:175), over the rationals. -/
def balance_ratio (ws : List Nat) : ℚ :=
  if 0 < list_max_nat ws then (list_min_nat ws : ℚ) / (list_max_nat ws : ℚ)
  else 0

/-- TestResultVerifier._verify_load_balancing (verify_results.py:133-182).
The argument is the parsed plan, or none when the plan file is absent or
not valid JSON (both printed as failures and returned False).
With an empty workload table the check fails; with exactly one assignee it
passes; with two or more the balance ratio is computed for the report line
and the check passes unconditionally. -/
def verify_load_balancing (plan : Option Plan) : Bool :=
  match plan with
  | none => false
  | some p =>
      let w := assignee_workload p
      if w = [] then false
      else if w.length < 2 then true
      else
        let _ratio := balance_ratio (w.map Prod.snd)
        true

/-- Extension list hard-coded in _verify_ignore_rules (verify_results.py:210). -/
def ignored_extensions : List String := [".pyc", ".log", ".tmp", ".DS_Store"]

/-- Directory-name list hard-coded in _verify_ignore_rules (verify_results.py:211). -/
def ignored_dirs : List String := ["__pycache__", "node_modules", ".vscode"]

/-- Character-list substring test: does n occur contiguously in the
second list. -/
def chars_contain_sub (n : List Char) : List Char → Bool
  | [] => n.isEmpty
  | c :: t => n.isPrefixOf (c :: t) || chars_contain_sub n t

/-- Boolean substring test (Python `dir_name in f`). -/
def str_contains_sub (needle hay : String) : Bool :=
  chars_contain_sub needle.toList hay.toList

/-- TestResultVerifier._verify_ignore_rules (verify_results.py:184-229).
First argument: contents of the `.merge_ignore` file when it exists, none
when it does not (the source only tests existence and never reads it).
Second argument: the parsed plan, none for a missing or unparseable plan
file. The processed path list is the plan's file paths (file_level) or the
concatenated group file lists (any other mode); the check fails exactly
when some processed path ends in a hard-coded extension or contains a
hard-coded directory name. -/
def verify_ignore_rules (ignore_file : Option String) (plan : Option Plan) : Bool :=
  match ignore_file with
  | none => false
  | some _ =>
      match plan with
      | none => false
      | some p =>
          let processed :=
            if p.processing_mode = some "file_level" then
              p.files.map (·.path)
            else
              p.groups.foldl (fun acc g => acc ++ g.files) []
          let has_ignored :=
            processed.any (fun f =>
              ignored_extensions.any (fun ext => f.endsWith ext)
              || ignored_dirs.any (fun d => str_contains_sub d f))
          !has_ignored

/-! ### Concrete plans used as inputs for the load-balancing claims -/

/-- file_level plan assigning 1 file to A and 4 files to B:
balance ratio 1/4, below the 0.3 floor the spec postulates. -/
def skewedPlan : Plan :=
  { processing_mode := some "file_level"
    files :=
      [ ⟨"a0.py", some "A", some "pending"⟩
      , ⟨"b1.py", some "B", some "pending"⟩
      , ⟨"b2.py", some "B", some "pending"⟩
      , ⟨"b3.py", some "B", some "pending"⟩
      , ⟨"b4.py", some "B", some "pending"⟩ ]
    groups := [] }

/-- file_level plan whose single file carries no assignee, so the whole
workload falls into the unassigned sentinel bucket: zero assignees. -/
def allUnassignedPlan : Plan :=
  { processing_mode := some "file_level"
    files := [⟨"a.py", none, some "pending"⟩]
    groups := [] }

/-- group_based plan with a single assignee holding all workload. -/
def singleAssigneePlan : Plan :=
  { processing_mode := some "group_based"
    files := []
    groups := [⟨["x.py", "y.py"], some "A"⟩] }

/-- file_level plan with two assignees, perfectly balanced. -/
def balancedPlan : Plan :=
  { processing_mode := some "file_level"
    files :=
      [ ⟨"a.py", some "A", some "pending"⟩
      , ⟨"b.py", some "B", some "pending"⟩ ]
    groups := [] }

/-! ### Claims C1 and C7 on the load balancer -/

/-- C1 (counterexample): the plan assigning 1 file to A and 4 to B has
balance_ratio 1/4, which does not exceed the floor 3/10, yet the
load-balance verification succeeds: the claimed iff
`passes ↔ ratio > 0.3` is false at this parseable plan. -/
theorem c1_no_floor_counterexample :
    verify_load_balancing (some skewedPlan) = true
      ∧ balance_ratio ((assignee_workload skewedPlan).map Prod.snd) = 1 / 4
      ∧ ¬ ((1 : ℚ) / 4 > 3 / 10) := by
  refine ⟨by decide, ?_, by norm_num⟩
  have hw : (assignee_workload skewedPlan).map Prod.snd = [1, 4] := by decide
  have hmin : list_min_nat [1, 4] = 1 := by decide
  have hmax : list_max_nat [1, 4] = 4 := by decide
  rw [hw, balance_ratio, hmin, hmax]
  norm_num

/-- C1 (amended): for every parseable plan artifact in which at least two
distinct assignees carry workload, the load-balance verification succeeds
unconditionally; the balance ratio is computed only for the report line
and no 0.3 floor is enforced. -/
theorem c1_load_balancing_always_passes (p : Plan)
    (h : 2 ≤ (assignee_workload p).length) :
    verify_load_balancing (some p) = true := by
  unfold verify_load_balancing
  have hne : ¬ assignee_workload p = [] := by
    intro he
    rw [he] at h
    simp at h
  have hlt : ¬ (assignee_workload p).length < 2 := by omega
  simp only [hne, if_false, hlt, if_true]

/-- Witness for c1_load_balancing_always_passes at the 1-vs-4 plan. -/
theorem c1_load_balancing_always_passes_witness :
    verify_load_balancing (some skewedPlan) = true :=
  c1_load_balancing_always_passes skewedPlan (by decide)

/-- C7 (counterexample): a parseable plan whose only entry is assigned to
the unassigned sentinel has zero assignees carrying workload, and the
load-balance verification returns false, not the trivial pass the claim
asserts for fewer than two assignees. -/
theorem c7_zero_assignees_counterexample :
    assignee_workload allUnassignedPlan = []
      ∧ verify_load_balancing (some allUnassignedPlan) = false := by
  refine ⟨by decide, by decide⟩

/-- C7 (amended): for every parseable plan artifact in which exactly one
distinct assignee carries workload the load-balance verification passes
trivially; the zero-assignee case instead fails. -/
theorem c7_single_assignee_trivial_pass (p : Plan)
    (h : (assignee_workload p).length = 1) :
    verify_load_balancing (some p) = true := by
  unfold verify_load_balancing
  have hne : ¬ assignee_workload p = [] := by
    intro he
    rw [he] at h
    simp at h
  have hlt : (assignee_workload p).length < 2 := by omega
  simp only [hne, if_false, hlt, if_true]

/-- Witness for c7_single_assignee_trivial_pass at the one-group plan. -/
theorem c7_single_assignee_trivial_pass_witness :
    verify_load_balancing (some singleAssigneePlan) = true :=
  c7_single_assignee_trivial_pass singleAssigneePlan (by decide)

/-- C10: the ignore-rule verification never reads the contents of the
.merge_ignore file: any two contents placed at the fixed path yield the
identical outcome on the same plan, and an absent file always fails. -/
theorem c10_ignore_file_contents_irrelevant :
    (∀ (c₁ c₂ : String) (plan : Option Plan),
        verify_ignore_rules (some c₁) plan = verify_ignore_rules (some c₂) plan)
      ∧ (∀ plan : Option Plan, verify_ignore_rules none plan = false) := by
  constructor
  · intro c₁ c₂ plan
    rfl
  · intro plan
    rfl

/-! ### Benchmark aggregation (benchmark.py)

PerformanceBenchmark._run_single_benchmark records, per (iteration, mode),
one of: a metrics dict holding `duration` and `success` (the subprocess
completed; success iff exit code 0), a timeout dict `{"timeout": True,
"duration": 300}`, an error dict `{"error": msg}` with no duration, or no
entry at all for the mode (the mode was skipped). -/

/-- One (iteration, mode) outcome as stored in iteration_results. -/
inductive ModeOutcome where
  /-- _collect_performance_metrics result: wall-clock duration and the
  success flag `result.returncode == 0`. -/
  | metrics (duration : ℚ) (success : Bool)
  /-- subprocess.TimeoutExpired: recorded as duration 300, no success key. -/
  | timeout
  /-- any other exception: an error message only, no duration key. -/
  | err
  /-- the mode is absent from this iteration's dict. -/
  | absent
deriving DecidableEq, Repr

/-- Python test `mode in iteration and "duration" in iteration[mode]`
(benchmark.py:257): metrics and timeout entries carry a duration. -/
def has_duration : ModeOutcome → Bool
  | .metrics _ _ => true
  | .timeout => true
  | _ => false

/-- The recorded duration (benchmark.py:153, 163): the wall-clock time for
a completed run, the 300-second cap for a timeout. -/
def duration_val : ModeOutcome → ℚ
  | .metrics d _ => d
  | .timeout => 300
  | _ => 0

/-- Python `d.get("success", False)` (benchmark.py:269): true only for a
metrics entry whose success flag is set. -/
def success_flag : ModeOutcome → Bool
  | .metrics _ b => b
  | _ => false

/-- statistics.mean. -/
def list_mean (l : List ℚ) : ℚ := l.sum / (l.length : ℚ)

/-- min over a nonempty rational list (0 for the empty list, which the
source guards against). -/
def list_min_q : List ℚ → ℚ
  | [] => 0
  | h :: t => t.foldl min h

/-- max over a nonempty rational list. -/
def list_max_q : List ℚ → ℚ
  | [] => 0
  | h :: t => t.foldl max h

/-- Sample variance with divisor n-1: the square of statistics.stdev. -/
def sample_variance (l : List ℚ) : ℚ :=
  (l.map (fun x => (x - list_mean l) ^ 2)).sum / ((l.length : ℚ) - 1)

/-- The square of the reported std_deviation (benchmark.py:268):
`statistics.stdev(durations) if len(durations) > 1 else 0`; the reported
value is the nonnegative square root of this rational. -/
def std_deviation_sq (l : List ℚ) : ℚ :=
  if 1 < l.length then sample_variance l else 0

/-- Per-mode aggregated statistics (benchmark.py:264-271). std_deviation
is recorded via its square, see std_deviation_sq. -/
structure ModeStats where
  avg_duration : ℚ
  min_duration : ℚ
  max_duration : ℚ
  std_deviation_sq : ℚ
  success_rate : ℚ
  sample_metrics : Option ModeOutcome
deriving DecidableEq, Repr

/-- PerformanceBenchmark._analyze_iteration_results (benchmark.py:244-273)
restricted to one processing mode: its per-iteration outcomes come in as a
list. mode_data keeps the outcomes that carry a duration; with none left
the mode gets no statistics entry; otherwise mean/min/max/std are computed
over those durations and the success rate divides the successes among
mode_data by len(mode_data). -/
def analyze_mode (rs : List ModeOutcome) : Option ModeStats :=
  let mode_data := rs.filter has_duration
  let durations := mode_data.map duration_val
  if mode_data = [] then none
  else some
    { avg_duration := list_mean durations
      min_duration := list_min_q durations
      max_duration := list_max_q durations
      std_deviation_sq := std_deviation_sq durations
      success_rate :=
        ((mode_data.filter success_flag).length : ℚ) / (mode_data.length : ℚ)
      sample_metrics := mode_data.head? }

/-- Unfolding of analyze_mode on an input with at least one
duration-carrying outcome. -/
theorem analyze_mode_eq (rs : List ModeOutcome)
    (h : ¬ rs.filter has_duration = []) :
    analyze_mode rs = some
      { avg_duration := list_mean ((rs.filter has_duration).map duration_val)
        min_duration := list_min_q ((rs.filter has_duration).map duration_val)
        max_duration := list_max_q ((rs.filter has_duration).map duration_val)
        std_deviation_sq :=
          std_deviation_sq ((rs.filter has_duration).map duration_val)
        success_rate :=
          (((rs.filter has_duration).filter success_flag).length : ℚ)
            / ((rs.filter has_duration).length : ℚ)
        sample_metrics := (rs.filter has_duration).head? } := by
  unfold analyze_mode
  rw [if_neg h]

/-- The three-iteration input of C2's counterexample: one successful run of
1 second, one timeout, one error. -/
def c2Input : List ModeOutcome := [.metrics 1 true, .timeout, .err]

/-- C2 (counterexample): over the attempted iterations [success in 1s,
timeout, error], the claim predicts mean 1 (timeouts and errors excluded
from timing) and success rate 1/3 (denominator 3 = iterations attempted).
The code instead averages the timeout's capped 300s into the mean
((1+300)/2) and divides the success count by the 2 duration-carrying
iterations (1/2). -/
theorem c2_aggregation_counterexample :
    ((analyze_mode c2Input).map ModeStats.avg_duration = some (301 / 2))
      ∧ ((analyze_mode c2Input).map ModeStats.success_rate = some (1 / 2))
      ∧ ((301 : ℚ) / 2 ≠ 1) ∧ ((1 : ℚ) / 2 ≠ 1 / 3) := by
  rw [analyze_mode_eq c2Input (by decide)]
  have hd : (c2Input.filter has_duration).map duration_val = [1, 300] := rfl
  have hs : ((c2Input.filter has_duration).filter success_flag).length = 1 := rfl
  have hl : (c2Input.filter has_duration).length = 2 := rfl
  rw [hd, hs, hl]
  refine ⟨?_, ?_, by norm_num, by norm_num⟩
  · simp only [Option.map_some', Option.some.injEq]
    show ((1 : ℚ) + (300 + 0)) / ((2 : ℕ) : ℚ) = 301 / 2
    norm_num
  · simp only [Option.map_some', Option.some.injEq]
    norm_num

/-- C2 (amended): the timing statistics of a (scenario, mode) aggregation
are computed over the iterations that recorded a duration - completed runs
and timeouts, the latter entering at the 300-second cap - excluding only
iterations that ended in an error or were skipped; and the success rate
equals (count of iterations flagged successful) divided by the count of
duration-carrying iterations, not by the count of iterations attempted. -/
theorem c2_aggregation_amended (rs : List ModeOutcome) (st : ModeStats)
    (h : analyze_mode rs = some st) :
    st.avg_duration = list_mean ((rs.filter has_duration).map duration_val)
      ∧ st.success_rate =
          (((rs.filter has_duration).filter success_flag).length : ℚ)
            / ((rs.filter has_duration).length : ℚ)
      ∧ has_duration .timeout = true
      ∧ duration_val .timeout = 300
      ∧ has_duration .err = false
      ∧ has_duration .absent = false := by
  by_cases he : rs.filter has_duration = []
  · rw [analyze_mode, if_pos he] at h
    exact absurd h (by simp)
  · rw [analyze_mode_eq rs he, Option.some.injEq] at h
    subst h
    exact ⟨rfl, rfl, rfl, rfl, rfl, rfl⟩

/-- Witness for c2_aggregation_amended at the input [success in 1s,
timeout, error]. -/
theorem c2_aggregation_amended_witness :
    ((analyze_mode c2Input).get (by decide)).avg_duration
        = list_mean ((c2Input.filter has_duration).map duration_val)
      ∧ ((analyze_mode c2Input).get (by decide)).success_rate =
          (((c2Input.filter has_duration).filter success_flag).length : ℚ)
            / ((c2Input.filter has_duration).length : ℚ)
      ∧ has_duration .timeout = true
      ∧ duration_val .timeout = 300
      ∧ has_duration .err = false
      ∧ has_duration .absent = false :=
  c2_aggregation_amended c2Input ((analyze_mode c2Input).get (by decide))
    (Option.some_get _).symm

/-- The duration list [2, 4, 6] of C9 as recorded mode outcomes. -/
def c9Input : List ModeOutcome := [.metrics 2 true, .metrics 4 true, .metrics 6 true]

/-- C9: the aggregation reports standard deviation 0 whenever exactly one
duration was recorded (first conjunct, for every singleton list), and on
recorded durations [2, 4, 6] it reports mean 4, min 2, max 6 and a
three-sample standard deviation of 2: the sample variance with divisor
n-1 = 2 is 4 = 2^2, so statistics.stdev returns 2. -/
theorem c9_std_and_stats (l : List ℚ) (h : l.length = 1) :
    std_deviation_sq l = 0
      ∧ list_mean ((c9Input.filter has_duration).map duration_val) = 4
      ∧ list_min_q ((c9Input.filter has_duration).map duration_val) = 2
      ∧ list_max_q ((c9Input.filter has_duration).map duration_val) = 6
      ∧ std_deviation_sq ((c9Input.filter has_duration).map duration_val)
          = (2 : ℚ) ^ 2 := by
  have h0 : std_deviation_sq l = 0 := by
    unfold std_deviation_sq
    rw [h]
    norm_num
  have hd : (c9Input.filter has_duration).map duration_val = [2, 4, 6] := rfl
  rw [hd]
  have hmean : list_mean [(2 : ℚ), 4, 6] = 4 := by
    show ((2 : ℚ) + (4 + (6 + 0))) / 3 = 4
    norm_num
  refine ⟨h0, hmean, ?_, ?_, ?_⟩
  · show min (min (2 : ℚ) 4) 6 = 2
    norm_num
  · show max (max (2 : ℚ) 4) 6 = 6
    norm_num
  · unfold std_deviation_sq
    rw [if_pos (by norm_num)]
    unfold sample_variance
    rw [hmean]
    show (((2 : ℚ) - 4) ^ 2 + ((4 - 4) ^ 2 + ((6 - 4) ^ 2 + 0))) / (3 - 1)
        = 2 ^ 2
    norm_num

/-- Witness for c9_std_and_stats at the singleton duration list [5]. -/
theorem c9_std_and_stats_witness :
    std_deviation_sq [(5 : ℚ)] = 0
      ∧ list_mean ((c9Input.filter has_duration).map duration_val) = 4
      ∧ list_min_q ((c9Input.filter has_duration).map duration_val) = 2
      ∧ list_max_q ((c9Input.filter has_duration).map duration_val) = 6
      ∧ std_deviation_sq ((c9Input.filter has_duration).map duration_val)
          = (2 : ℚ) ^ 2 :=
  c9_std_and_stats [(5 : ℚ)] rfl

/-! ### Repository synthesis (create_test_repo.py)

The synthesizer mutates a working tree and a git repository through
subprocess git invocations. The embedding tracks the branch set, the
checked-out branch, the configured author identity, the set of files ever
written, the set of paths modified since the last commit (the uncommitted
working-tree state), and the commit list. File contents are not tracked:
no claim depends on them, and every write performed by the scripts changes
the written file's content. Directory creation (mkdir) is not tracked
either; git tracks files only. -/

/-- One commit: the branch it was made on, its message, and the author
identity configured at commit time. -/
structure Commit where
  branch : String
  message : String
  author : String
deriving DecidableEq, Repr

/-- The tracked repository state. -/
structure GitState where
  branches : List String
  current : String
  identityName : String
  identityEmail : String
  files : List String
  dirty : List String
  commits : List Commit
deriving DecidableEq, Repr

/-- State of the directory before `git init`. -/
def GitState.empty : GitState :=
  { branches := [], current := "", identityName := "", identityEmail := ""
    files := [], dirty := [], commits := [] }

/-- The git subcommands issued by TestRepoCreator. -/
inductive GitCmd where
  | init
  | configName (v : String)
  | configEmail (v : String)
  | addAll
  | commit (msg : String)
  | checkoutNew (branch : String)
  | checkout (branch : String)
deriving DecidableEq, Repr

/-- Semantics of one git subcommand: the new state and whether git exits
with status 0. A commit with a clean tree and a checkout of a missing
branch (or `checkout -b` of an existing one) fail and leave the state
unchanged. -/
def git_apply : GitCmd → GitState → GitState × Bool
  | .init, s =>
      ({ s with branches := ["master"], current := "master", commits := [] }, true)
  | .configName v, s => ({ s with identityName := v }, true)
  | .configEmail v, s => ({ s with identityEmail := v }, true)
  | .addAll, s => (s, true)
  | .commit msg, s =>
      if s.dirty = [] then (s, false)
      else
        ({ s with dirty := []
                  commits := ⟨s.current, msg, s.identityName⟩ :: s.commits },
         true)
  | .checkoutNew b, s =>
      if b ∈ s.branches then (s, false)
      else ({ s with branches := b :: s.branches, current := b }, true)
  | .checkout b, s =>
      if b ∈ s.branches then ({ s with current := b }, true) else (s, false)

/-- TestRepoCreator._run_git_command (create_test_repo.py:73-88): runs the
command; a CalledProcessError (modelled by env c = false, or by a
semantic failure) is caught, logged, and swallowed - the helper returns
None and the caller's state simply does not advance. No exception and no
typed error reaches the caller. -/
def run_git_command (env : GitCmd → Bool) (c : GitCmd) (s : GitState) : GitState :=
  if env c then (git_apply c s).1 else s

/-- Insert without duplicates (a path written twice stays one path). -/
def insert_path (p : String) (l : List String) : List String :=
  if p ∈ l then l else p :: l

/-- TestRepoCreator._create_file (create_test_repo.py:90-96): writes the
file, making the path part of the tree and of the uncommitted set. -/
def create_file (p : String) (s : GitState) : GitState :=
  { s with files := insert_path p s.files, dirty := insert_path p s.dirty }

/-- TestRepoCreator._setup_git_config (create_test_repo.py:68-71). -/
def setup_git_config (env : GitCmd → Bool) (s : GitState) : GitState :=
  run_git_command env (.configEmail "test@example.com")
    (run_git_command env (.configName "Test User") s)

/-- The synthetic e-mail derived from an author name
(create_test_repo.py:106). -/
def author_email (a : String) : String :=
  (a.toLower.replace " " ".") ++ "@example.com"

/-- TestRepoCreator._commit_changes (create_test_repo.py:98-114):
`git add .`, an optional temporary identity override, `git commit`, and a
restore of the default identity. -/
def commit_changes (env : GitCmd → Bool) (msg : String) (author : Option String)
    (s : GitState) : GitState :=
  let s := run_git_command env .addAll s
  let s :=
    match author with
    | some a =>
        run_git_command env (.configEmail (author_email a))
          (run_git_command env (.configName a) s)
    | none => s
  let s := run_git_command env (.commit msg) s
  match author with
  | some _ => setup_git_config env s
  | none => s

/-- Python `contributors[i % len(contributors)]` and
`random.choice(contributors)` with the random index supplied by a stream;
total with default "" where Python would raise on an empty list. -/
def pick (l : List String) (i : ℕ) : String :=
  l.getD (i % l.length) ""

/-- TestRepoCreator._create_simple_repo (create_test_repo.py:116-201). -/
def create_simple_repo (env : GitCmd → Bool) (contributors : List String)
    (s : GitState) : GitState :=
  let s := create_file "README.md" s
  let s := create_file "main.py" s
  let s := create_file "config.json" s
  let s := commit_changes env "Initial commit" (some (contributors.getD 0 "")) s
  let s := run_git_command env (.checkoutNew "feature") s
  let s := create_file "utils.py" s
  let s := create_file "main.py" s
  let second := if 1 < contributors.length then contributors.getD 1 ""
                else contributors.getD 0 ""
  let s := commit_changes env "Add utility functions" (some second) s
  let s := create_file "tests.py" s
  let s := commit_changes env "Add basic tests" (some second) s
  run_git_command env (.checkout "master") s

/-- The ten core files of the complex skeleton (create_test_repo.py:248-271). -/
def complex_core_files : List String :=
  [ "src/core/__init__.py", "src/core/main.py", "src/core/database.py"
  , "src/utils/__init__.py", "src/utils/helpers.py", "src/utils/validators.py"
  , "src/ui/__init__.py", "src/ui/components.py"
  , "src/api/__init__.py", "src/api/routes.py" ]

/-- TestRepoCreator._add_feature_changes (create_test_repo.py:302-348):
a feature module, a rewritten src/core/main.py, one commit, then a test
file and a second commit. -/
def add_feature_changes (env : GitCmd → Bool) (branch author : String)
    (s : GitState) : GitState :=
  let num := ((branch.splitOn "-").getLastD "")
  let s := create_file ("src/features/feature_" ++ num ++ ".py") s
  let s := create_file "src/core/main.py" s
  let s := commit_changes env ("Add " ++ branch ++ " functionality") (some author) s
  let s := create_file ("tests/unit/test_feature_" ++ num ++ ".py") s
  commit_changes env ("Add tests for " ++ branch) (some author) s

/-- TestRepoCreator._add_hotfix_changes (create_test_repo.py:350-362). -/
def add_hotfix_changes (env : GitCmd → Bool) (author : String)
    (s : GitState) : GitState :=
  let s := create_file "src/utils/validators.py" s
  commit_changes env "Hotfix: Improve email validation" (some author) s

/-- TestRepoCreator._add_development_changes (create_test_repo.py:364-397). -/
def add_development_changes (env : GitCmd → Bool) (author : String)
    (s : GitState) : GitState :=
  let s := create_file "scripts/dev_setup.py" s
  let s := create_file "config/development.json" s
  commit_changes env "Add development configuration" (some author) s

/-- The prefix dispatch inside the branch loop of _create_complex_repo
(create_test_repo.py:283-294): feature-* branches get the two-commit
feature mutation, hotfix-* the validator patch, develop the scaffolding;
any other name gets no commits. -/
def branch_mutation (env : GitCmd → Bool) (contributors : List String)
    (i : ℕ) (b : String) (s : GitState) : GitState :=
  if b.startsWith "feature-" then
    add_feature_changes env b (pick contributors i) s
  else if b.startsWith "hotfix-" then
    add_hotfix_changes env (pick contributors i) s
  else if b = "develop" then
    add_development_changes env (pick contributors i) s
  else s

/-- The per-branch body of the loop in _create_complex_repo
(create_test_repo.py:279-297): branch from the current trunk checkout,
apply the prefix-selected mutation with author contributors[i mod n], and
return to master. -/
def branch_loop (env : GitCmd → Bool) (contributors : List String) :
    ℕ → List String → GitState → GitState
  | _, [], s => s
  | i, b :: rest, s =>
      let s := run_git_command env (.checkoutNew b) s
      let s := branch_mutation env contributors i b s
      let s := run_git_command env (.checkout "master") s
      branch_loop env contributors (i + 1) rest s

/-- The random draws of a synthesis call, supplied as explicit streams
(one call to random.choice / random.randint per loop position). -/
structure Rand where
  typeAt : ℕ → ℕ
  dirAt : ℕ → ℕ
  authorAt : ℕ → ℕ
  mbAuthorAt : ℕ → ℕ
  bugfixFileAt : ℕ → ℕ
  histFileAt : ℕ → ℕ
  histAuthorAt : ℕ → ℕ

/-- The rotating synthetic file extensions (create_test_repo.py:401-408). -/
def generated_exts : List String := ["py", "js", "css", "html", "json", "md"]

/-- The scratch directories for top-up files (create_test_repo.py:413). -/
def generated_dirs : List String := ["src/generated", "data", "docs/generated"]

/-- Zero-padded index as in Python {i:03d}. -/
def pad3 (n : ℕ) : String :=
  (if n < 10 then "00" else if n < 100 then "0" else "") ++ toString n

/-- The loop body of _add_additional_files (create_test_repo.py:410-421)
at loop index i: write one synthetic file of the stream-chosen type into
the stream-chosen scratch directory, and commit the batch when i+1 is a
multiple of ten, authored by a stream-chosen contributor. -/
def add_file_step (env : GitCmd → Bool) (contributors : List String)
    (rnd : Rand) (s : GitState) (i : ℕ) : GitState :=
  let ext := generated_exts.getD (rnd.typeAt i % 6) ""
  let dir := generated_dirs.getD (rnd.dirAt i % 3) ""
  let s := create_file (dir ++ "/generated_file_" ++ pad3 i ++ "." ++ ext) s
  if (i + 1) % 10 = 0 then
    commit_changes env ("Add generated files batch " ++ toString (i / 10 + 1))
      (some (pick contributors (rnd.authorAt i))) s
  else s

/-- TestRepoCreator._add_additional_files (create_test_repo.py:399-421):
emit `count` synthetic files of randomly rotating type into randomly
chosen scratch directories, committing after every tenth file with a
random author; files past the last full batch of ten are written but
never committed. -/
def add_additional_files (env : GitCmd → Bool) (count : ℕ)
    (contributors : List String) (rnd : Rand) (s : GitState) : GitState :=
  (List.range count).foldl (add_file_step env contributors rnd) s

/-- TestRepoCreator._create_complex_repo (create_test_repo.py:203-300):
skeleton files and an initial-structure commit by contributors[0], the
per-branch loop, then a top-up of files - 20 additional files. The
subtraction is Python's; for files < 20 the range is empty, matching
truncated ℕ subtraction. -/
def create_complex_repo (env : GitCmd → Bool) (contributors : List String)
    (files : ℕ) (branches : List String) (rnd : Rand) (s : GitState) : GitState :=
  let s := create_file "README.md" s
  let s := complex_core_files.foldl (fun s p => create_file p s) s
  let s := commit_changes env "Initial project structure"
    (some (contributors.getD 0 "")) s
  let s := branch_loop env contributors 0 branches s
  add_additional_files env (files - 20) contributors rnd s

/-- TestRepoCreator._add_random_feature (create_test_repo.py:456-472). -/
def add_random_feature (env : GitCmd → Bool) (branch author : String)
    (s : GitState) : GitState :=
  let name := ((branch.splitOn "/").getLastD "").replace "-" "_"
  let s := create_file ("src/features/" ++ name ++ ".py") s
  commit_changes env ("Implement " ++ name ++ " feature") (some author) s

/-- The three known files _add_random_bugfix may patch
(create_test_repo.py:479). -/
def bugfix_candidates : List String :=
  ["src/core/main.py", "src/utils/helpers.py", "src/api/routes.py"]

/-- TestRepoCreator._add_random_bugfix (create_test_repo.py:474-492):
read one of three known files, prepend a marker line, rewrite it and
commit; contents are untracked, so the effect is a dirty write of the
chosen path plus one commit. -/
def add_random_bugfix (env : GitCmd → Bool) (branch author : String)
    (fileChoice : ℕ) (s : GitState) : GitState :=
  let descr := ((branch.splitOn "/").getLastD "").replace "-" " "
  let target := bugfix_candidates.getD (fileChoice % 3) ""
  let s := create_file target s
  commit_changes env ("Fix " ++ descr) (some author) s

/-- The fixed extra branch list of _create_multi_branch_repo
(create_test_repo.py:429-438). -/
def multi_branch_extra : List String :=
  [ "feature/user-auth", "feature/api-v2", "feature/frontend-redesign"
  , "bugfix/login-issue", "bugfix/performance", "refactor/database"
  , "experimental/new-algo", "release/v2.0" ]

/-- The per-branch body of the loop in _create_multi_branch_repo
(create_test_repo.py:444-454): branch, dispatch on the slash-namespace
head, return to master. -/
def multi_branch_loop (env : GitCmd → Bool) (contributors : List String)
    (rnd : Rand) : ℕ → List String → GitState → GitState
  | _, [], s => s
  | j, b :: rest, s =>
      let s := run_git_command env (.checkoutNew b) s
      let ty := (b.splitOn "/").headD ""
      let s :=
        if ty = "feature" then
          add_random_feature env b (pick contributors (rnd.mbAuthorAt j)) s
        else if ty = "bugfix" then
          add_random_bugfix env b (pick contributors (rnd.mbAuthorAt j))
            (rnd.bugfixFileAt j) s
        else s
      let s := run_git_command env (.checkout "master") s
      multi_branch_loop env contributors rnd (j + 1) rest s

/-- TestRepoCreator._create_multi_branch_repo (create_test_repo.py:423-454). -/
def create_multi_branch_repo (env : GitCmd → Bool) (contributors : List String)
    (files : ℕ) (branches : List String) (rnd : Rand) (s : GitState) : GitState :=
  let s := create_complex_repo env contributors files branches rnd s
  multi_branch_loop env contributors rnd 0 multi_branch_extra s

/-- TestRepoCreator._add_commit_history (create_test_repo.py:513-541):
`count` commits, each rewriting one of twenty numbered history files
chosen at random, authored by a random contributor (the sleep that spaces
timestamps has no state effect). -/
def add_commit_history (env : GitCmd → Bool) (contributors : List String)
    (count : ℕ) (rnd : Rand) (s : GitState) : GitState :=
  (List.range count).foldl
    (fun s i =>
      let fileNum := 1 + rnd.histFileAt i % 20
      let s := create_file ("src/history/history_file_" ++ pad3 fileNum ++ ".py") s
      commit_changes env
        ("Update history file " ++ toString fileNum
          ++ " (commit " ++ toString (i + 1) ++ ")")
        (some (pick contributors (rnd.histAuthorAt i))) s)
    s

/-- TestRepoCreator._create_large_scale_repo (create_test_repo.py:494-511):
the complex layout followed by 50 history commits. -/
def create_large_scale_repo (env : GitCmd → Bool) (contributors : List String)
    (files : ℕ) (branches : List String) (rnd : Rand) (s : GitState) : GitState :=
  let s := create_complex_repo env contributors files branches rnd s
  add_commit_history env contributors 50 rnd s

/-- Result of a create_repo call: whether the repository directory was
created on disk, the repository state reached, and the call's outcome
(the ValueError raised for an unknown kind, or normal return). -/
structure CreateResult where
  dirCreated : Bool
  state : GitState
  outcome : Except String Unit
deriving Repr

/-- TestRepoCreator.create_repo (create_test_repo.py:29-66) for a
repository path that does not yet exist (the overwrite prompt is not
taken): the directory is created and git init plus the default identity
configuration are run before the kind dispatch; an unrecognized kind then
raises ValueError, with the earlier effects left in place. -/
def create_repo (env : GitCmd → Bool) (repo_type : String)
    (contributors : List String) (files : ℕ) (branches : List String)
    (rnd : Rand) : CreateResult :=
  let s := run_git_command env .init GitState.empty
  let s := setup_git_config env s
  if repo_type = "simple" then
    ⟨true, create_simple_repo env contributors s, .ok ()⟩
  else if repo_type = "complex" then
    ⟨true, create_complex_repo env contributors files branches rnd s, .ok ()⟩
  else if repo_type = "multi-branch" then
    ⟨true, create_multi_branch_repo env contributors files branches rnd s, .ok ()⟩
  else if repo_type = "large-scale" then
    ⟨true, create_large_scale_repo env contributors files branches rnd s, .ok ()⟩
  else
    ⟨true, s, .error ("不支持的仓库类型: " ++ repo_type)⟩

/-- The environment where every git invocation exits 0. -/
def env0 : GitCmd → Bool := fun _ => true

/-- An environment where every `git commit` exits non-zero and every other
git invocation succeeds. -/
def envCommitFails : GitCmd → Bool
  | .commit _ => false
  | _ => true

/-- All-zero random streams. -/
def rnd0 : Rand := ⟨fun _ => 0, fun _ => 0, fun _ => 0, fun _ => 0,
  fun _ => 0, fun _ => 0, fun _ => 0⟩

/-- Outcome test matching `creator.create_repo(...)` returning normally. -/
def is_ok : Except String Unit → Bool
  | .ok _ => true
  | .error _ => false

/-- C3 (counterexample): requesting the unrecognized kind "weird" does
raise the unsupported-kind ValueError, but only after the repository
directory has been created and `git init` (plus the identity
configuration) has run: the claim that no filesystem mutation and no
version-control initialization precede the failure is false. -/
theorem c3_unknown_kind_counterexample :
    (create_repo env0 "weird" ["Alice"] 0 [] rnd0).outcome
        = Except.error "不支持的仓库类型: weird"
      ∧ (create_repo env0 "weird" ["Alice"] 0 [] rnd0).dirCreated = true
      ∧ (create_repo env0 "weird" ["Alice"] 0 [] rnd0).state.branches
        = ["master"] :=
  ⟨rfl, rfl, rfl⟩

/-- C3 (amended): for every unrecognized repository kind the operation
fails with the unsupported-kind error, but only after the repository
directory has been created and version-control initialization (git init
and default identity configuration) has run; those effects are left in
place. -/
theorem c3_unknown_kind_amended (t : String) (contributors : List String)
    (files : ℕ) (branches : List String) (rnd : Rand)
    (h1 : t ≠ "simple") (h2 : t ≠ "complex")
    (h3 : t ≠ "multi-branch") (h4 : t ≠ "large-scale") :
    (create_repo env0 t contributors files branches rnd).outcome
        = Except.error ("不支持的仓库类型: " ++ t)
      ∧ (create_repo env0 t contributors files branches rnd).dirCreated = true
      ∧ (create_repo env0 t contributors files branches rnd).state.branches
        = ["master"]
      ∧ (create_repo env0 t contributors files branches rnd).state.current
        = "master" := by
  have hr : create_repo env0 t contributors files branches rnd =
      ⟨true, setup_git_config env0 (run_git_command env0 .init GitState.empty),
        Except.error ("不支持的仓库类型: " ++ t)⟩ := by
    simp only [create_repo, if_neg h1, if_neg h2, if_neg h3, if_neg h4]
  rw [hr]
  exact ⟨rfl, rfl, rfl, rfl⟩

/-- Witness for c3_unknown_kind_amended at the kind "bogus". -/
theorem c3_unknown_kind_amended_witness :
    (create_repo env0 "bogus" ["Alice"] 0 [] rnd0).outcome
        = Except.error ("不支持的仓库类型: " ++ "bogus")
      ∧ (create_repo env0 "bogus" ["Alice"] 0 [] rnd0).dirCreated = true
      ∧ (create_repo env0 "bogus" ["Alice"] 0 [] rnd0).state.branches
        = ["master"]
      ∧ (create_repo env0 "bogus" ["Alice"] 0 [] rnd0).state.current
        = "master" :=
  c3_unknown_kind_amended "bogus" ["Alice"] 0 [] rnd0
    (by decide) (by decide) (by decide) (by decide)

/-- C4 (counterexample): in an environment where every `git commit` exits
non-zero, a simple synthesis still returns normally (no typed failure at
all) with an empty commit list: the failing commands were logged and
swallowed by _run_git_command, and the operation completed as if
successful, contradicting the claimed ExternalToolError outcome. -/
theorem c4_git_failure_counterexample :
    is_ok (create_repo envCommitFails "simple" ["Alice", "Bob"] 0 [] rnd0).outcome
        = true
      ∧ (create_repo envCommitFails "simple" ["Alice", "Bob"] 0 [] rnd0).state.commits
        = [] :=
  ⟨rfl, rfl⟩

/-- C4 (amended): for every recognized repository kind, synthesis returns
normally whatever the exit statuses of the underlying git commands:
_run_git_command catches the failure, logs it and returns None, and the
caller continues, so no external-tool error is ever surfaced. -/
theorem c4_git_failures_swallowed (env : GitCmd → Bool) (t : String)
    (contributors : List String) (files : ℕ) (branches : List String)
    (rnd : Rand)
    (h : t = "simple" ∨ t = "complex" ∨ t = "multi-branch" ∨ t = "large-scale") :
    (create_repo env t contributors files branches rnd).outcome = .ok () := by
  rcases h with rfl | rfl | rfl | rfl <;> rfl

/-- Witness for c4_git_failures_swallowed in the all-commits-fail
environment on a simple synthesis. -/
theorem c4_git_failures_swallowed_witness :
    (create_repo envCommitFails "simple" ["Alice", "Bob"] 0 [] rnd0).outcome
      = .ok () :=
  c4_git_failures_swallowed envCommitFails "simple" ["Alice", "Bob"] 0 [] rnd0
    (Or.inl rfl)

/-- C5 (counterexample): the simple synthesis with contributors
["Alice", "Bob"] produces three commits in total, hence two commits beyond
the initial one, not the three the claim asserts. -/
theorem c5_simple_commit_count_counterexample :
    (create_repo env0 "simple" ["Alice", "Bob"] 0 [] rnd0).state.commits.length
        = 3
      ∧ (create_repo env0 "simple" ["Alice", "Bob"] 0 [] rnd0).state.commits.length
          - 1 ≠ 3 :=
  ⟨rfl, by decide⟩

/-- C5 (amended): the simple synthesis with contributors ["Alice", "Bob"]
produces exactly one working branch named feature besides the trunk,
exactly two commits beyond the initial commit (the utilities commit and
the tests commit, both by Bob, on the feature branch), and leaves the
trunk checked out on return. -/
theorem c5_simple_repo_shape :
    (create_repo env0 "simple" ["Alice", "Bob"] 0 [] rnd0).state.branches
        = ["feature", "master"]
      ∧ (create_repo env0 "simple" ["Alice", "Bob"] 0 [] rnd0).state.commits
        = [ ⟨"feature", "Add basic tests", "Bob"⟩
          , ⟨"feature", "Add utility functions", "Bob"⟩
          , ⟨"master", "Initial commit", "Alice"⟩ ]
      ∧ (create_repo env0 "simple" ["Alice", "Bob"] 0 [] rnd0).state.current
        = "master"
      ∧ (create_repo env0 "simple" ["Alice", "Bob"] 0 [] rnd0).outcome
        = .ok () :=
  ⟨rfl, rfl, rfl, rfl⟩

/-- C8 (counterexample): a complex synthesis requesting 25 files tops up
with 25 - 20 = 5 synthetic files; no batch of ten completes, so all five
generated files are still uncommitted when create_repo returns, refuting
the claim that no uncommitted working-tree state remains. -/
theorem c8_uncommitted_trailing_counterexample :
    (create_repo env0 "complex" ["Alice"] 25 [] rnd0).state.dirty
        = [ "src/generated/generated_file_004.py"
          , "src/generated/generated_file_003.py"
          , "src/generated/generated_file_002.py"
          , "src/generated/generated_file_001.py"
          , "src/generated/generated_file_000.py" ]
      ∧ (create_repo env0 "complex" ["Alice"] 25 [] rnd0).state.dirty ≠ [] := by
  have h : (create_repo env0 "complex" ["Alice"] 25 [] rnd0).state.dirty
      = [ "src/generated/generated_file_004.py"
        , "src/generated/generated_file_003.py"
        , "src/generated/generated_file_002.py"
        , "src/generated/generated_file_001.py"
        , "src/generated/generated_file_000.py" ] := rfl
  exact ⟨h, by rw [h]; simp⟩

/-! ### State-preservation lemmas used by the complex-synthesis claims -/

/-- Full characterization of _commit_changes with an author override when
every git command succeeds: identity restored to the default, tree clean,
and a commit (attributed to the override) recorded iff the tree was dirty. -/
theorem commit_changes_env0_spec (m a : String) (s : GitState) :
    commit_changes env0 m (some a) s =
      { s with identityName := "Test User"
               identityEmail := "test@example.com"
               dirty := []
               commits :=
                 if s.dirty = [] then s.commits
                 else ⟨s.current, m, a⟩ :: s.commits } := by
  by_cases h : s.dirty = [] <;>
    simp [commit_changes, run_git_command, git_apply, setup_git_config, env0, h]

theorem commit_changes_env0_branches (m a : String) (s : GitState) :
    (commit_changes env0 m (some a) s).branches = s.branches := by
  rw [commit_changes_env0_spec]

theorem commit_changes_env0_current (m a : String) (s : GitState) :
    (commit_changes env0 m (some a) s).current = s.current := by
  rw [commit_changes_env0_spec]

theorem commit_changes_env0_dirty (m a : String) (s : GitState) :
    (commit_changes env0 m (some a) s).dirty = [] := by
  rw [commit_changes_env0_spec]

theorem create_file_branches (p : String) (s : GitState) :
    (create_file p s).branches = s.branches := rfl

theorem create_file_current (p : String) (s : GitState) :
    (create_file p s).current = s.current := rfl

theorem create_file_dirty_ne (p : String) (s : GitState) :
    (create_file p s).dirty ≠ [] := by
  by_cases h : p ∈ s.dirty
  · simpa [create_file, insert_path, h] using List.ne_nil_of_mem h
  · simp [create_file, insert_path, h]

theorem foldl_create_file_branches (l : List String) :
    ∀ s : GitState, ((l.foldl (fun s p => create_file p s) s).branches = s.branches) := by
  induction l with
  | nil => intro s; rfl
  | cons p t ih => intro s; rw [List.foldl_cons, ih, create_file_branches]

theorem foldl_create_file_current (l : List String) :
    ∀ s : GitState, ((l.foldl (fun s p => create_file p s) s).current = s.current) := by
  induction l with
  | nil => intro s; rfl
  | cons p t ih => intro s; rw [List.foldl_cons, ih, create_file_current]

theorem run_checkoutNew_env0_fields (b : String) (s : GitState)
    (h : b ∉ s.branches) :
    (run_git_command env0 (.checkoutNew b) s).branches = b :: s.branches
      ∧ (run_git_command env0 (.checkoutNew b) s).current = b
      ∧ (run_git_command env0 (.checkoutNew b) s).dirty = s.dirty := by
  refine ⟨?_, ?_, ?_⟩ <;> simp [run_git_command, env0, git_apply, h]

theorem run_checkout_env0_fields (b : String) (s : GitState)
    (h : b ∈ s.branches) :
    (run_git_command env0 (.checkout b) s).branches = s.branches
      ∧ (run_git_command env0 (.checkout b) s).current = b
      ∧ (run_git_command env0 (.checkout b) s).dirty = s.dirty := by
  refine ⟨?_, ?_, ?_⟩ <;> simp [run_git_command, env0, git_apply, h]

theorem add_feature_changes_env0 (b a : String) (s : GitState) :
    (add_feature_changes env0 b a s).branches = s.branches
      ∧ (add_feature_changes env0 b a s).current = s.current
      ∧ (add_feature_changes env0 b a s).dirty = [] := by
  refine ⟨?_, ?_, ?_⟩ <;>
    simp [add_feature_changes, commit_changes_env0_branches,
      commit_changes_env0_current, commit_changes_env0_dirty,
      create_file_branches, create_file_current]

theorem add_hotfix_changes_env0 (a : String) (s : GitState) :
    (add_hotfix_changes env0 a s).branches = s.branches
      ∧ (add_hotfix_changes env0 a s).current = s.current
      ∧ (add_hotfix_changes env0 a s).dirty = [] := by
  refine ⟨?_, ?_, ?_⟩ <;>
    simp [add_hotfix_changes, commit_changes_env0_branches,
      commit_changes_env0_current, commit_changes_env0_dirty,
      create_file_branches, create_file_current]

theorem add_development_changes_env0 (a : String) (s : GitState) :
    (add_development_changes env0 a s).branches = s.branches
      ∧ (add_development_changes env0 a s).current = s.current
      ∧ (add_development_changes env0 a s).dirty = [] := by
  refine ⟨?_, ?_, ?_⟩ <;>
    simp [add_development_changes, commit_changes_env0_branches,
      commit_changes_env0_current, commit_changes_env0_dirty,
      create_file_branches, create_file_current]

theorem branch_mutation_env0_fields (contributors : List String) (i : ℕ)
    (b : String) (s : GitState) :
    (branch_mutation env0 contributors i b s).branches = s.branches
      ∧ (branch_mutation env0 contributors i b s).current = s.current
      ∧ (s.dirty = [] → (branch_mutation env0 contributors i b s).dirty = []) := by
  unfold branch_mutation
  split
  · exact ⟨(add_feature_changes_env0 _ _ _).1, (add_feature_changes_env0 _ _ _).2.1,
      fun _ => (add_feature_changes_env0 _ _ _).2.2⟩
  · split
    · exact ⟨(add_hotfix_changes_env0 _ _).1, (add_hotfix_changes_env0 _ _).2.1,
        fun _ => (add_hotfix_changes_env0 _ _).2.2⟩
    · split
      · exact ⟨(add_development_changes_env0 _ _).1,
          (add_development_changes_env0 _ _).2.1,
          fun _ => (add_development_changes_env0 _ _).2.2⟩
      · exact ⟨rfl, rfl, fun h => h⟩

/-- Invariant of the _create_complex_repo branch loop: starting from a
clean trunk checkout whose branch set misses all requested names, the loop
adds exactly the requested branches, returns to the trunk, and leaves the
tree clean. -/
theorem branch_loop_env0_spec (contributors : List String) :
    ∀ (rest : List String) (i : ℕ) (s : GitState),
      s.current = "master" → "master" ∈ s.branches → s.dirty = [] →
      (∀ b ∈ rest, b ∉ s.branches) → rest.Nodup →
      (branch_loop env0 contributors i rest s).branches
          = rest.reverse ++ s.branches
        ∧ (branch_loop env0 contributors i rest s).current = "master"
        ∧ (branch_loop env0 contributors i rest s).dirty = [] := by
  intro rest
  induction rest with
  | nil =>
      intro i s hcur _hm hdirty _hfresh _hnd
      exact ⟨by simp [branch_loop], by simp [branch_loop, hcur],
        by simp [branch_loop, hdirty]⟩
  | cons b rest ih =>
      intro i s hcur hm hdirty hfresh hnd
      have hbnotin : b ∉ s.branches := hfresh b (List.mem_cons_self b rest)
      obtain ⟨k1b, _k1c, k1d⟩ := run_checkoutNew_env0_fields b s hbnotin
      show ((branch_loop env0 contributors (i + 1) rest
          (run_git_command env0 (.checkout "master")
            (branch_mutation env0 contributors i b
              (run_git_command env0 (.checkoutNew b) s)))).branches
          = (b :: rest).reverse ++ s.branches)
        ∧ ((branch_loop env0 contributors (i + 1) rest
          (run_git_command env0 (.checkout "master")
            (branch_mutation env0 contributors i b
              (run_git_command env0 (.checkoutNew b) s)))).current = "master")
        ∧ ((branch_loop env0 contributors (i + 1) rest
          (run_git_command env0 (.checkout "master")
            (branch_mutation env0 contributors i b
              (run_git_command env0 (.checkoutNew b) s)))).dirty = [])
      generalize hT1 : run_git_command env0 (GitCmd.checkoutNew b) s = t1
      rw [hT1] at k1b k1d
      obtain ⟨k2b, _k2c, k2d⟩ := branch_mutation_env0_fields contributors i b t1
      generalize hT2 : branch_mutation env0 contributors i b t1 = t2
      rw [hT2] at k2b k2d
      have ht2b : t2.branches = b :: s.branches := by rw [k2b, k1b]
      have ht2d : t2.dirty = [] := k2d (by rw [k1d, hdirty])
      have hmm : "master" ∈ t2.branches := by
        rw [ht2b]; exact List.mem_cons_of_mem b hm
      obtain ⟨k3b, k3c, k3d⟩ := run_checkout_env0_fields "master" t2 hmm
      generalize hT3 : run_git_command env0 (GitCmd.checkout "master") t2 = t3
      rw [hT3] at k3b k3c k3d
      have ht3b : t3.branches = b :: s.branches := by rw [k3b, ht2b]
      have hfresh' : ∀ b' ∈ rest, b' ∉ t3.branches := by
        intro b' hb'
        rw [ht3b]
        intro hmem
        rcases List.mem_cons.mp hmem with heq | hmem'
        · rw [heq] at hb'
          exact (List.nodup_cons.mp hnd).1 hb'
        · exact hfresh b' (List.mem_cons_of_mem b hb') hmem'
      have ihr := ih (i + 1) t3 k3c
        (by rw [ht3b]; exact List.mem_cons_of_mem b hm)
        (by rw [k3d, ht2d])
        hfresh' (List.nodup_cons.mp hnd).2
      refine ⟨?_, ihr.2.1, ihr.2.2⟩
      rw [ihr.1, ht3b, List.reverse_cons, List.append_assoc,
        List.singleton_append]

theorem add_file_step_env0_fields (contributors : List String) (rnd : Rand)
    (s : GitState) (i : ℕ) :
    (add_file_step env0 contributors rnd s i).branches = s.branches
      ∧ (add_file_step env0 contributors rnd s i).current = s.current
      ∧ ((add_file_step env0 contributors rnd s i).dirty = []
          ↔ (i + 1) % 10 = 0) := by
  unfold add_file_step
  by_cases h : (i + 1) % 10 = 0
  · rw [if_pos h]
    exact ⟨by rw [commit_changes_env0_branches, create_file_branches],
      by rw [commit_changes_env0_current, create_file_current],
      by rw [commit_changes_env0_dirty]; exact iff_of_true rfl h⟩
  · rw [if_neg h]
    exact ⟨create_file_branches _ _, create_file_current _ _,
      iff_of_false (create_file_dirty_ne _ _) h⟩

theorem add_additional_files_succ (env : GitCmd → Bool)
    (contributors : List String) (rnd : Rand) (n : ℕ) (s : GitState) :
    add_additional_files env (n + 1) contributors rnd s =
      add_file_step env contributors rnd
        (add_additional_files env n contributors rnd s) n := by
  unfold add_additional_files
  rw [List.range_succ, List.foldl_append, List.foldl_cons, List.foldl_nil]

theorem add_additional_files_env0_branches (contributors : List String)
    (rnd : Rand) :
    ∀ (count : ℕ) (s : GitState),
      (add_additional_files env0 count contributors rnd s).branches = s.branches
        ∧ (add_additional_files env0 count contributors rnd s).current
          = s.current := by
  intro count
  induction count with
  | zero => intro s; exact ⟨rfl, rfl⟩
  | succ n ih =>
      intro s
      rw [add_additional_files_succ]
      constructor
      · rw [(add_file_step_env0_fields contributors rnd _ n).1, (ih s).1]
      · rw [(add_file_step_env0_fields contributors rnd _ n).2.1, (ih s).2]

/-- The top-up loop leaves a clean tree exactly when the file count is a
multiple of the batch size ten: the files of an incomplete trailing batch
are written but never committed. -/
theorem add_additional_files_env0_dirty (contributors : List String)
    (rnd : Rand) (count : ℕ) (s : GitState) (hs : s.dirty = []) :
    (add_additional_files env0 count contributors rnd s).dirty = []
      ↔ count % 10 = 0 := by
  cases count with
  | zero => exact iff_of_true hs rfl
  | succ n =>
      rw [add_additional_files_succ]
      exact (add_file_step_env0_fields contributors rnd _ n).2.2

/-- Combined shape of _create_complex_repo under an all-success git
environment: requested branches added to the incoming branch set, trunk
checked out, and a clean tree iff the top-up count files-20 is a multiple
of ten. -/
theorem create_complex_repo_env0_spec (contributors : List String)
    (files : ℕ) (branches : List String) (rnd : Rand) (s : GitState)
    (hcur : s.current = "master") (hm : "master" ∈ s.branches)
    (hfresh : ∀ b ∈ branches, b ∉ s.branches) (hnd : branches.Nodup) :
    (create_complex_repo env0 contributors files branches rnd s).branches
        = branches.reverse ++ s.branches
      ∧ (create_complex_repo env0 contributors files branches rnd s).current
        = "master"
      ∧ ((create_complex_repo env0 contributors files branches rnd s).dirty = []
          ↔ (files - 20) % 10 = 0) := by
  show (add_additional_files env0 (files - 20) contributors rnd
        (branch_loop env0 contributors 0 branches
          (commit_changes env0 "Initial project structure"
            (some (contributors.getD 0 ""))
            (complex_core_files.foldl (fun s p => create_file p s)
              (create_file "README.md" s))))).branches
      = branches.reverse ++ s.branches
    ∧ (add_additional_files env0 (files - 20) contributors rnd
        (branch_loop env0 contributors 0 branches
          (commit_changes env0 "Initial project structure"
            (some (contributors.getD 0 ""))
            (complex_core_files.foldl (fun s p => create_file p s)
              (create_file "README.md" s))))).current = "master"
    ∧ ((add_additional_files env0 (files - 20) contributors rnd
        (branch_loop env0 contributors 0 branches
          (commit_changes env0 "Initial project structure"
            (some (contributors.getD 0 ""))
            (complex_core_files.foldl (fun s p => create_file p s)
              (create_file "README.md" s))))).dirty = []
        ↔ (files - 20) % 10 = 0)
  generalize hT0 : create_file "README.md" s = t0
  have k0b : t0.branches = s.branches := by rw [← hT0, create_file_branches]
  have k0c : t0.current = s.current := by rw [← hT0, create_file_current]
  generalize hT1 : complex_core_files.foldl (fun s p => create_file p s) t0 = t1
  have k1b : t1.branches = s.branches := by
    rw [← hT1, foldl_create_file_branches, k0b]
  have k1c : t1.current = s.current := by
    rw [← hT1, foldl_create_file_current, k0c]
  generalize hT2 : commit_changes env0 "Initial project structure"
    (some (contributors.getD 0 "")) t1 = t2
  have k2b : t2.branches = s.branches := by
    rw [← hT2, commit_changes_env0_branches, k1b]
  have k2c : t2.current = "master" := by
    rw [← hT2, commit_changes_env0_current, k1c, hcur]
  have k2d : t2.dirty = [] := by rw [← hT2, commit_changes_env0_dirty]
  have hloop := branch_loop_env0_spec contributors branches 0 t2 k2c
    (by rw [k2b]; exact hm) k2d
    (by intro b hb; rw [k2b]; exact hfresh b hb) hnd
  generalize hT3 : branch_loop env0 contributors 0 branches t2 = t3
  rw [hT3] at hloop
  have k3b : t3.branches = branches.reverse ++ s.branches := by
    rw [hloop.1, k2b]
  refine ⟨?_, ?_, ?_⟩
  · rw [(add_additional_files_env0_branches contributors rnd _ t3).1, k3b]
  · rw [(add_additional_files_env0_branches contributors rnd _ t3).2, hloop.2.1]
  · exact add_additional_files_env0_dirty contributors rnd _ t3 hloop.2.2

/-- C6: a complex synthesis with a nonempty contributor list and distinct
requested branch names none of which is the trunk name produces exactly
the requested branch count plus one (the trunk) branches, and leaves the
trunk checked out when synthesis completes. -/
theorem c6_complex_branch_count (contributors branches : List String)
    (files : ℕ) (rnd : Rand) (_hc : contributors ≠ [])
    (hnd : branches.Nodup) (hm : "master" ∉ branches) :
    (create_repo env0 "complex" contributors files branches rnd).state.branches.length
        = branches.length + 1
      ∧ (create_repo env0 "complex" contributors files branches rnd).state.current
        = "master" := by
  have hr : (create_repo env0 "complex" contributors files branches rnd).state
      = create_complex_repo env0 contributors files branches rnd
          (setup_git_config env0 (run_git_command env0 .init GitState.empty)) :=
    rfl
  have hinit : setup_git_config env0 (run_git_command env0 .init GitState.empty)
      = { branches := ["master"], current := "master"
          identityName := "Test User", identityEmail := "test@example.com"
          files := [], dirty := [], commits := [] } := rfl
  rw [hr, hinit]
  have hspec := create_complex_repo_env0_spec contributors files branches rnd
    { branches := ["master"], current := "master"
      identityName := "Test User", identityEmail := "test@example.com"
      files := [], dirty := [], commits := [] }
    rfl (List.mem_singleton.mpr rfl)
    (by
      intro b hb hmem
      exact hm (by rwa [List.mem_singleton.mp hmem] at hb))
    hnd
  refine ⟨?_, hspec.2.1⟩
  rw [hspec.1]
  simp

/-- Witness for c6_complex_branch_count: one requested branch yields two
branches and a trunk checkout. -/
theorem c6_complex_branch_count_witness :
    (create_repo env0 "complex" ["Alice"] 0 ["dev-x"] rnd0).state.branches.length
        = (["dev-x"] : List String).length + 1
      ∧ (create_repo env0 "complex" ["Alice"] 0 ["dev-x"] rnd0).state.current
        = "master" :=
  c6_complex_branch_count ["Alice"] ["dev-x"] 0 rnd0
    (by decide) (by decide) (by decide)

/-- C8 (amended): a complex synthesis commits its top-up files only in
full batches of ten: the working tree is clean on return exactly when
(files - 20) is a multiple of ten, and otherwise the trailing files of
the incomplete batch remain uncommitted. -/
theorem c8_trailing_batch_dirty (contributors branches : List String)
    (files : ℕ) (rnd : Rand) (_hc : contributors ≠ [])
    (hnd : branches.Nodup) (hm : "master" ∉ branches) :
    (create_repo env0 "complex" contributors files branches rnd).state.dirty = []
      ↔ (files - 20) % 10 = 0 := by
  have hr : (create_repo env0 "complex" contributors files branches rnd).state
      = create_complex_repo env0 contributors files branches rnd
          (setup_git_config env0 (run_git_command env0 .init GitState.empty)) :=
    rfl
  have hinit : setup_git_config env0 (run_git_command env0 .init GitState.empty)
      = { branches := ["master"], current := "master"
          identityName := "Test User", identityEmail := "test@example.com"
          files := [], dirty := [], commits := [] } := rfl
  rw [hr, hinit]
  exact (create_complex_repo_env0_spec contributors files branches rnd
    { branches := ["master"], current := "master"
      identityName := "Test User", identityEmail := "test@example.com"
      files := [], dirty := [], commits := [] }
    rfl (List.mem_singleton.mpr rfl)
    (by
      intro b hb hmem
      exact hm (by rwa [List.mem_singleton.mp hmem] at hb))
    hnd).2.2

/-- Witness for c8_trailing_batch_dirty at 30 requested files: the ten
top-up files form one full batch, so the tree is clean. -/
theorem c8_trailing_batch_dirty_witness :
    (create_repo env0 "complex" ["Alice"] 30 [] rnd0).state.dirty = []
      ↔ (30 - 20) % 10 = 0 :=
  c8_trailing_batch_dirty ["Alice"] [] 30 rnd0 (by decide) (by decide) (by decide)

end GMOTest
